import Mathlib

/-!
# Lead-capture form of the e-book landing page (`src/script.js`)

A shallow embedding of the form validation and submission pipeline of `script.js`:
the two validators, the honeypot check, the presentation helpers and the submit
handler, followed by the properties of the specification that concern them.

* JavaScript strings are sequences of UTF-16 code units (`JSString`), so that
  `.length` is `List.length`.
* The handler runs over a `World`: the part of the DOM the script touches together
  with the ordered trace of every effect the script performs.
* The `await` of the handler is a suspension point: the handler is split into the
  part before it and the part after it, and `Page` interleaves other events between
  the two.
-/

namespace EBook

/-! ## Strings -/

/-- A JavaScript string: its UTF-16 code units. -/
abbrev JSString := List Nat

/-- Code units of a text literal (all literals of the script are in the Basic Multilingual
Plane, where a character is one code unit). -/
def lit (s : String) : JSString := s.toList.map Char.toNat

/-- The characters removed by `String.prototype.trim` and matched by `\s` in a regular
expression: ECMAScript WhiteSpace and LineTerminator. -/
def isWhiteSpace (c : Nat) : Bool :=
  c == 0x09 || c == 0x0A || c == 0x0B || c == 0x0C || c == 0x0D || c == 0x20 || c == 0xA0
    || c == 0x1680 || (0x2000 ≤ c && c ≤ 0x200A) || c == 0x2028 || c == 0x2029
    || c == 0x202F || c == 0x205F || c == 0x3000 || c == 0xFEFF

/-- The method `String.prototype.trim`: white space is removed from both ends. -/
def trim (s : JSString) : JSString :=
  ((s.dropWhile isWhiteSpace).reverse.dropWhile isWhiteSpace).reverse

/-- What the script takes from its host: `String.prototype.toLowerCase` (the Unicode case
mapping of the engine) and the clock behind `new Date().toISOString()`. -/
structure Host where
  toLowerCase : JSString → JSString
  isoNow : JSString

/-- A sample host: lower-casing of the ASCII letters, and a fixed clock. -/
def asciiHost : Host where
  toLowerCase := fun s => s.map fun c => if 65 ≤ c ∧ c ≤ 90 then c + 32 else c
  isoNow := lit "2024-01-01T00:00:00.000Z"

/-! ## Regular expression of line 16 -/

/-- The pieces the pattern of line 16 is made of. -/
inductive Atom where
  /-- A literal code unit, such as `@` or `\.`. -/
  | char (c : Nat)
  /-- A negated class under `+`, such as `[^\s@]+`: one or more code units outside `excl`. -/
  | plusNot (excl : Nat → Bool)

/-- Backtracking match of a sequence of atoms against the whole of `s`: the pattern is
anchored by `^` and `$`, and without the `m` flag `$` is the end of the input. -/
def matchAtoms : List Atom → JSString → Bool
  | [], s => s.isEmpty
  | Atom.char _ :: _, [] => false
  | Atom.char c :: rest, x :: xs => x == c && matchAtoms rest xs
  | Atom.plusNot _ :: _, [] => false
  | Atom.plusNot excl :: rest, x :: xs =>
      !excl x && (matchAtoms (Atom.plusNot excl :: rest) xs || matchAtoms rest xs)
termination_by structural _ s => s

/-- The class `[\s@]` that the pattern negates. -/
def spaceOrAt (c : Nat) : Bool := isWhiteSpace c || c == 64

/-- Line 16: `const EMAIL_REGEX = /^[^\s@]+@[^\s@]+\.[^\s@]+$/`. -/
def EMAIL_REGEX : List Atom :=
  [Atom.plusNot spaceOrAt, Atom.char 64, Atom.plusNot spaceOrAt, Atom.char 46,
   Atom.plusNot spaceOrAt]

/-- The method `RegExp.prototype.test`. -/
def test (re : List Atom) (s : JSString) : Bool := matchAtoms re s

/-! ## Validators (lines 43-90) -/

/-- The object `{ isValid, error }` returned by the validators. -/
structure ValidationResult where
  isValid : Bool
  error : String
  deriving DecidableEq

/-- Lines 43-59. -/
def validateName (name : JSString) : ValidationResult :=
  let trimmedName := trim name
  if trimmedName.isEmpty then
    { isValid := false, error := "Name is required" }
  else if trimmedName.length < 2 then
    { isValid := false, error := "Name must be at least 2 characters" }
  else if trimmedName.length > 100 then
    { isValid := false, error := "Name must be less than 100 characters" }
  else
    { isValid := true, error := "" }

/-- Lines 66-82. -/
def validateEmail (h : Host) (email : JSString) : ValidationResult :=
  let trimmedEmail := h.toLowerCase (trim email)
  if trimmedEmail.isEmpty then
    { isValid := false, error := "Email is required" }
  else if !test EMAIL_REGEX trimmedEmail then
    { isValid := false, error := "Please enter a valid email address" }
  else if trimmedEmail.length > 254 then
    { isValid := false, error := "Email is too long" }
  else
    { isValid := true, error := "" }

/-! ## The page: DOM state and effects -/

/-- The three input controls of the form (lines 22-24). -/
inductive Field where
  | name | email | honeypot
  deriving DecidableEq

/-- The other elements the script writes to (lines 26-32). -/
inductive Elem where
  | submitText | submitLoader | successMessage | errorMessage | errorText | nameError
  | emailError
  deriving DecidableEq

/-- The two closures handed to `setTimeout`: lines 284-288 and lines 256-258. -/
inductive Callback where
  | reenableSubmit | downloadEbook
  deriving DecidableEq

/-- The object `submissionData` of lines 239-243. -/
structure Payload where
  name : JSString
  email : JSString
  timestamp : JSString
  deriving DecidableEq

/-- One effect of the script, in the order performed. -/
inductive Event where
  /-- The call `e.preventDefault()`. -/
  | preventDefault
  /-- The assignment `el.style.display = v`. -/
  | setDisplay (el : Elem) (v : String)
  /-- The assignment `el.textContent = v`. -/
  | setTextContent (el : Elem) (v : String)
  /-- The call `el.classList.add` for the class `show`. -/
  | addShow (el : Elem)
  /-- The call `el.classList.remove` for the class `show`. -/
  | removeShow (el : Elem)
  /-- The assignment `input.value = v`. -/
  | setValue (f : Field) (v : JSString)
  /-- The assignment `submitBtn.disabled = b`. -/
  | setDisabled (b : Bool)
  /-- The call `form.reset()`. -/
  | formReset
  | consoleWarn (msg : String)
  | consoleError (msg : String)
  | consoleLog (msg : String)
  /-- The call `fetch(url, ...)` of lines 174-181: a POST in mode no-cors whose body is
  `JSON.stringify(body)`. -/
  | fetch (url : String) (body : Payload)
  /-- The call `setTimeout(cb, ms)`. -/
  | setTimeout (cb : Callback) (ms : Nat)
  /-- The call `el.scrollIntoView(...)`. -/
  | scrollIntoView (el : Elem)
  /-- A click on a temporary link `<a href download>` (lines 157-164). -/
  | linkClick (href : String) (download : String)
  deriving DecidableEq

/-- The part of the document the script reads and writes. -/
structure Dom where
  /-- The property `.value` of the inputs. -/
  value : Field → JSString
  /-- The default values restored by `form.reset()`. -/
  defaultValue : Field → JSString
  /-- The property `submitBtn.disabled`. -/
  disabled : Bool
  /-- The property `.style.display`. -/
  display : Elem → String
  /-- The property `.textContent`. -/
  textContent : Elem → String
  /-- Whether `.classList` contains the class `show`. -/
  hasShow : Elem → Bool

/-- The effect of an event on the document. -/
def Dom.apply (d : Dom) : Event → Dom
  | Event.setDisplay el v => { d with display := fun x => if x = el then v else d.display x }
  | Event.setTextContent el v =>
      { d with textContent := fun x => if x = el then v else d.textContent x }
  | Event.addShow el => { d with hasShow := fun x => if x = el then true else d.hasShow x }
  | Event.removeShow el => { d with hasShow := fun x => if x = el then false else d.hasShow x }
  | Event.setValue f v => { d with value := fun x => if x = f then v else d.value x }
  | Event.setDisabled b => { d with disabled := b }
  | Event.formReset => { d with value := d.defaultValue }
  | _ => d

/-- The document together with everything the script has done so far. -/
structure World where
  dom : Dom
  trace : List Event

/-- Perform one effect. -/
def World.exec (w : World) (e : Event) : World :=
  { dom := w.dom.apply e, trace := w.trace ++ [e] }

/-- Line 13. -/
def GOOGLE_SCRIPT_URL : String := "PASTE_WEBHOOK_URL_HERE"

/-- Lines 88-90. -/
def isSpam (w : World) : Bool := decide ((w.dom.value Field.honeypot).length > 0)

/-- Lines 97-105. -/
def showFieldError (errorElement : Elem) (message : String) (w : World) : World :=
  if message ≠ "" then
    (w.exec (Event.setTextContent errorElement message)).exec (Event.addShow errorElement)
  else
    (w.exec (Event.setTextContent errorElement "")).exec (Event.removeShow errorElement)

/-- Lines 111-115. -/
def showErrorMessage (message : String) (w : World) : World :=
  ((w.exec (Event.setTextContent Elem.errorText message)).exec
    (Event.setDisplay Elem.errorMessage "block")).exec
    (Event.setDisplay Elem.successMessage "none")

/-- Lines 120-123. -/
def showSuccessMessage (w : World) : World :=
  (w.exec (Event.setDisplay Elem.successMessage "block")).exec
    (Event.setDisplay Elem.errorMessage "none")

/-- Lines 128-131. -/
def hideMessages (w : World) : World :=
  (w.exec (Event.setDisplay Elem.successMessage "none")).exec
    (Event.setDisplay Elem.errorMessage "none")

/-- Lines 155-165. -/
def downloadEbook (w : World) : World :=
  w.exec (Event.linkClick "/ebook.pdf" "Overcome_Procrastination_Guide.pdf")

/-- Lines 277-289. -/
def resetForm (w : World) : World :=
  ((((w.exec Event.formReset).exec (Event.setValue Field.name [])).exec
    (Event.setValue Field.email [])).exec (Event.setValue Field.honeypot [])).exec
    (Event.setTimeout Callback.reenableSubmit 2000)

/-- The bodies of the two timer callbacks: lines 285-287 and line 257. -/
def runCallback : Callback → World → World
  | Callback.reenableSubmit, w =>
      ((w.exec (Event.setDisabled false)).exec (Event.setDisplay Elem.submitText "inline")).exec
        (Event.setDisplay Elem.submitLoader "none")
  | Callback.downloadEbook, w => downloadEbook w

/-! ## Submission (lines 172-272) -/

/-- How the `fetch` of line 174 ends: the promise resolves, or a fault is thrown. -/
inductive Transport where
  | completes | throws
  deriving DecidableEq

/-- The object returned by `submitToGoogleSheets`; `{ success: true }` has no `error`. -/
structure SubmitResult where
  success : Bool
  error : Option String
  deriving DecidableEq

/-- Lines 174-181: the request is issued and the function suspends at `await`. -/
def submitToGoogleSheets.dispatch (data : Payload) (w : World) : World :=
  w.exec (Event.fetch GOOGLE_SCRIPT_URL data)

/-- Lines 185-193: the function resumes when the request has settled. -/
def submitToGoogleSheets.settle (t : Transport) (w : World) : SubmitResult × World :=
  match t with
  | Transport.completes => ({ success := true, error := none }, w)
  | Transport.throws =>
      ({ success := false, error := some "Failed to process your request. Please try again." },
       w.exec (Event.consoleError "Submission error:"))

/-- Lines 172-194, with nothing else running while the request is in flight. -/
def submitToGoogleSheets (t : Transport) (data : Payload) (w : World) : SubmitResult × World :=
  submitToGoogleSheets.settle t (submitToGoogleSheets.dispatch data w)

/-- Lines 200-243: the handler up to the call of line 246. The second component is the
payload handed to `submitToGoogleSheets`, or `none` when the handler has returned. -/
def handleFormSubmit.prepare (h : Host) (w0 : World) : World × Option Payload :=
  let w1 := hideMessages (w0.exec Event.preventDefault)
  if isSpam w1 then
    let w2 := w1.exec (Event.consoleWarn "Honeypot field was filled - likely spam")
    (resetForm (showSuccessMessage w2), none)
  else
    let nameValidation := validateName (w1.dom.value Field.name)
    if !nameValidation.isValid then
      (showFieldError Elem.nameError nameValidation.error w1, none)
    else
      let emailValidation := validateEmail h (w1.dom.value Field.email)
      if !emailValidation.isValid then
        (showFieldError Elem.emailError emailValidation.error w1, none)
      else
        let w2 := showFieldError Elem.emailError "" (showFieldError Elem.nameError "" w1)
        let w3 := ((w2.exec (Event.setDisabled true)).exec
          (Event.setDisplay Elem.submitText "none")).exec
          (Event.setDisplay Elem.submitLoader "inline")
        let submissionData : Payload :=
          { name := trim (w3.dom.value Field.name)
            email := h.toLowerCase (trim (w3.dom.value Field.email))
            timestamp := h.isoNow }
        (w3, some submissionData)

/-- Lines 248-271: the handler after `result` has arrived. -/
def handleFormSubmit.finish (result : SubmitResult) (w : World) : World :=
  if result.success then
    (((resetForm (showSuccessMessage w)).exec
      (Event.setTimeout Callback.downloadEbook 500)).exec
      (Event.scrollIntoView Elem.successMessage))
  else
    (((showErrorMessage (result.error.getD "") w).exec (Event.setDisabled false)).exec
      (Event.setDisplay Elem.submitText "inline")).exec
      (Event.setDisplay Elem.submitLoader "none")

/-- Lines 200-272: one whole run of the handler, the request ending as `t` says and nothing
else running while it is in flight. -/
def handleFormSubmit (h : Host) (t : Transport) (w : World) : World :=
  match handleFormSubmit.prepare h w with
  | (w1, none) => w1
  | (w1, some data) =>
      let r := submitToGoogleSheets t data w1
      handleFormSubmit.finish r.1 r.2

/-! ## The event loop around the handler -/

/-- The page between two events: the world, and the payloads of the handler runs that are
suspended at the `await` of line 246 with their request in flight. -/
structure Page where
  world : World
  inFlight : List Payload

/-- A `submit` event of the form: the listener of line 293 runs up to its `await`, then the
listener of line 356 logs the event. -/
def Page.submitEvent (h : Host) (p : Page) : Page :=
  match handleFormSubmit.prepare h p.world with
  | (w1, none) =>
      { p with world := w1.exec (Event.consoleLog "Event: form_submitted") }
  | (w1, some data) =>
      { world := (submitToGoogleSheets.dispatch data w1).exec
          (Event.consoleLog "Event: form_submitted")
        inFlight := p.inFlight ++ [data] }

/-- The visitor triggers submission through the submit control `submitBtn`: the browser
raises the `submit` event only when the control is not disabled. -/
def Page.triggerSubmit (h : Host) (p : Page) : Page :=
  if p.world.dom.disabled then p else p.submitEvent h

/-- The oldest request in flight settles as `t` says and its handler run resumes. -/
def Page.settle (t : Transport) (p : Page) : Page :=
  match p.inFlight with
  | [] => p
  | _ :: rest =>
      let r := submitToGoogleSheets.settle t p.world
      { world := handleFormSubmit.finish r.1 r.2, inFlight := rest }

/-- A timer fires. -/
def Page.fire (cb : Callback) (p : Page) : Page :=
  { p with world := runCallback cb p.world }

/-! ## Observations on a trace -/

/-- The payloads of the network calls of a trace, in order. -/
def fetches : List Event → List Payload
  | [] => []
  | Event.fetch _ body :: es => body :: fetches es
  | _ :: es => fetches es

/-- The timers started in a trace, in order. -/
def timers : List Event → List (Callback × Nat)
  | [] => []
  | Event.setTimeout cb ms :: es => (cb, ms) :: timers es
  | _ :: es => timers es

/-- The downloads performed in a trace. -/
def downloads : List Event → List (String × String)
  | [] => []
  | Event.linkClick href name :: es => (href, name) :: downloads es
  | _ :: es => downloads es

/-- A document for the examples: the three inputs hold the given values, the submit control
is enabled and shows its label, no banner and no field error is shown. -/
def Dom.sample (name email honeypot : JSString) : Dom where
  value := fun f =>
    match f with
    | Field.name => name
    | Field.email => email
    | Field.honeypot => honeypot
  defaultValue := fun _ => []
  disabled := false
  display := fun el =>
    match el with
    | Elem.submitText => "inline"
    | Elem.submitLoader => "none"
    | Elem.successMessage => "none"
    | Elem.errorMessage => "none"
    | _ => ""
  textContent := fun _ => ""
  hasShow := fun _ => false

/-- The sample document with an empty trace. -/
def World.sample (name email honeypot : JSString) : World :=
  { dom := Dom.sample name email honeypot, trace := [] }

/-! ## The claims restated over the definitions -/

/-- The form `A@B.C` in the words of the specification: `A`, `B` and `C` are non-empty and
hold no white space and no `@` (code unit 64); the dot is code unit 46. -/
def EmailForm (t : JSString) : Prop :=
  ∃ A B C : JSString, t = A ++ 64 :: (B ++ 46 :: C) ∧ A ≠ [] ∧ B ≠ [] ∧ C ≠ [] ∧
    (∀ c ∈ A, isWhiteSpace c = false ∧ c ≠ 64) ∧
    (∀ c ∈ B, isWhiteSpace c = false ∧ c ≠ 64) ∧
    (∀ c ∈ C, isWhiteSpace c = false ∧ c ≠ 64)

/-- The three failure rules of `validateName`, as the specification names them. -/
inductive NameRule where
  | empty | tooShort | tooLong
  deriving DecidableEq

/-- Whether a rule rejects the trimmed value `t`. -/
def NameRule.rejects : NameRule → JSString → Bool
  | NameRule.empty, t => t.isEmpty
  | NameRule.tooShort, t => decide (t.length < 2)
  | NameRule.tooLong, t => decide (t.length > 100)

/-- The message of a rule (lines 47, 51 and 55). -/
def NameRule.message : NameRule → String
  | NameRule.empty => "Name is required"
  | NameRule.tooShort => "Name must be at least 2 characters"
  | NameRule.tooLong => "Name must be less than 100 characters"

/-- The checks of `validateName` made in the given order: the first rule that rejects the
trimmed value gives the error. -/
def validateNameIn (order : List NameRule) (name : JSString) : ValidationResult :=
  match order.find? (fun r => r.rejects (trim name)) with
  | some r => { isValid := false, error := r.message }
  | none => { isValid := true, error := "" }

/-- The order in which lines 46-56 make the checks. -/
def sourceOrder : List NameRule := [NameRule.empty, NameRule.tooShort, NameRule.tooLong]

/-! ## Lemmas on the matcher -/

theorem matchAtoms_nil (s : JSString) : matchAtoms [] s = true ↔ s = [] := by
  cases s <;> simp [matchAtoms]

theorem matchAtoms_char (c : Nat) (rest : List Atom) (s : JSString) :
    matchAtoms (Atom.char c :: rest) s = true ↔
      ∃ xs, s = c :: xs ∧ matchAtoms rest xs = true := by
  cases s with
  | nil => simp [matchAtoms]
  | cons x xs =>
    simp only [matchAtoms, Bool.and_eq_true, beq_iff_eq, List.cons.injEq]
    constructor
    · rintro ⟨rfl, h⟩
      exact ⟨xs, ⟨rfl, rfl⟩, h⟩
    · rintro ⟨ys, ⟨rfl, rfl⟩, h⟩
      exact ⟨rfl, h⟩

theorem matchAtoms_plusNot (excl : Nat → Bool) (rest : List Atom) (s : JSString) :
    matchAtoms (Atom.plusNot excl :: rest) s = true ↔
      ∃ a b, s = a ++ b ∧ a ≠ [] ∧ (∀ c ∈ a, excl c = false) ∧ matchAtoms rest b = true := by
  induction s with
  | nil => simp [matchAtoms]
  | cons x xs ih =>
    simp only [matchAtoms, Bool.and_eq_true, Bool.not_eq_true', Bool.or_eq_true, ih]
    constructor
    · rintro ⟨hx, h | h⟩
      · obtain ⟨a, b, rfl, -, ha, hb⟩ := h
        exact ⟨x :: a, b, rfl, by simp, by simpa [hx] using ha, hb⟩
      · exact ⟨[x], xs, rfl, by simp, by simpa using hx, h⟩
    · rintro ⟨a, b, hs, hne, ha, hb⟩
      cases a with
      | nil => exact absurd rfl hne
      | cons y ys =>
        simp only [List.cons_append, List.cons.injEq] at hs
        obtain ⟨rfl, rfl⟩ := hs
        refine ⟨ha x (by simp), ?_⟩
        cases ys with
        | nil => right; simpa using hb
        | cons z zs =>
          left
          exact ⟨z :: zs, b, rfl, by simp, fun c hc => ha c (by simp at hc ⊢; tauto), hb⟩

theorem spaceOrAt_eq_false (c : Nat) :
    spaceOrAt c = false ↔ isWhiteSpace c = false ∧ c ≠ 64 := by
  simp [spaceOrAt]

/-- The pattern of line 16 accepts exactly the strings of the form `A@B.C`. -/
theorem test_EMAIL_REGEX_iff (t : JSString) : test EMAIL_REGEX t = true ↔ EmailForm t := by
  unfold test EMAIL_REGEX EmailForm
  simp only [matchAtoms_plusNot, matchAtoms_char, matchAtoms_nil, spaceOrAt_eq_false]
  constructor
  · rintro ⟨A, r1, rfl, hA, hA2, xs1, rfl, B, r2, rfl, hB, hB2, xs2, rfl, C, r3, rfl, hC, hC2,
      rfl⟩
    exact ⟨A, B, C, by simp, hA, hB, hC, hA2, hB2, hC2⟩
  · rintro ⟨A, B, C, rfl, hA, hB, hC, hA2, hB2, hC2⟩
    exact ⟨A, _, rfl, hA, hA2, _, rfl, B, _, rfl, hB, hB2, _, rfl, C, [], by simp, hC, hC2, rfl⟩

/-! ## Validators -/

/-- C1. For every string `s`, `validateName(s).isValid` is true if and only if the trimmed
`s` has at least 2 and at most 100 code units. -/
theorem validateName_isValid_iff (s : JSString) :
    (validateName s).isValid = true ↔ 2 ≤ (trim s).length ∧ (trim s).length ≤ 100 := by
  unfold validateName
  generalize trim s = t
  cases t with
  | nil => simp
  | cons x xs =>
    simp only [List.isEmpty_cons, Bool.false_eq_true, if_false, List.length_cons]
    split_ifs <;> simp <;> omega

/-- C2. For every string `s`, `validateEmail(s).isValid` is true if and only if
`t = lowercase(trim(s))` has at most 254 code units and has the form `A@B.C` with `A`, `B`
and `C` non-empty and free of white space and of `@`. -/
theorem validateEmail_isValid_iff (h : Host) (s : JSString) :
    (validateEmail h s).isValid = true ↔
      (h.toLowerCase (trim s)).length ≤ 254 ∧ EmailForm (h.toLowerCase (trim s)) := by
  unfold validateEmail
  rw [← test_EMAIL_REGEX_iff]
  cases ht : h.toLowerCase (trim s) with
  | nil => simp [test, EMAIL_REGEX, matchAtoms]
  | cons x xs =>
    simp only [List.isEmpty_cons, Bool.false_eq_true, if_false]
    split_ifs with h1 h2
    · simp_all
    · simp_all
      omega
    · simp_all

/-- The source makes the checks in the order empty, too short, too long. -/
theorem validateNameIn_sourceOrder (s : JSString) :
    validateNameIn sourceOrder s = validateName s := by
  unfold validateNameIn validateName sourceOrder
  generalize trim s = t
  cases t with
  | nil => simp [List.find?, NameRule.rejects, NameRule.message]
  | cons x xs =>
    simp only [List.find?, NameRule.rejects, List.isEmpty_cons, Bool.false_eq_true, if_false,
      List.length_cons]
    by_cases h1 : xs.length + 1 < 2
    · simp [h1, NameRule.message]
    · by_cases h2 : xs.length + 1 > 100
      · simp [h1, h2, NameRule.message]
      · simp [h1, h2]

theorem permutations_sourceOrder (order : List NameRule) (hp : order.Perm sourceOrder) :
    order = [NameRule.empty, NameRule.tooShort, NameRule.tooLong] ∨
    order = [NameRule.empty, NameRule.tooLong, NameRule.tooShort] ∨
    order = [NameRule.tooShort, NameRule.empty, NameRule.tooLong] ∨
    order = [NameRule.tooShort, NameRule.tooLong, NameRule.empty] ∨
    order = [NameRule.tooLong, NameRule.empty, NameRule.tooShort] ∨
    order = [NameRule.tooLong, NameRule.tooShort, NameRule.empty] := by
  have hl : order.length = 3 := by simpa [sourceOrder] using hp.length_eq
  have hn : order.Nodup := hp.nodup_iff.2 (by decide)
  match order, hl, hn with
  | [a, b, c], _, hn => cases a <;> cases b <;> cases c <;> simp_all

/-- In whatever order the checks are made: on a non-empty trimmed value the outcome is that
of the source, and on the empty one the value is rejected. -/
theorem validateNameIn_perm (order : List NameRule) (hp : order.Perm sourceOrder)
    (s : JSString) :
    (validateNameIn order s).isValid = (validateName s).isValid ∧
    (trim s ≠ [] → validateNameIn order s = validateName s) := by
  have ho := permutations_sourceOrder order hp
  unfold validateNameIn validateName
  generalize trim s = t
  cases t with
  | nil =>
    refine ⟨?_, by simp⟩
    rcases ho with rfl | rfl | rfl | rfl | rfl | rfl <;> simp [List.find?, NameRule.rejects]
  | cons x xs =>
    simp only [List.length_cons, List.isEmpty_cons, Bool.false_eq_true, if_false]
    by_cases h1 : xs.length + 1 < 2
    · have h2 : ¬ 100 < xs.length + 1 := by omega
      rcases ho with rfl | rfl | rfl | rfl | rfl | rfl <;>
        simp [List.find?, NameRule.rejects, NameRule.message, h1, h2]
    · by_cases h2 : 100 < xs.length + 1
      · rcases ho with rfl | rfl | rfl | rfl | rfl | rfl <;>
          simp [List.find?, NameRule.rejects, NameRule.message, h1, h2]
      · rcases ho with rfl | rfl | rfl | rfl | rfl | rfl <;>
          simp [List.find?, NameRule.rejects, NameRule.message, h1, h2]

/-- C10, as stated, fails on the whitespace-only name: both the empty rule and the
too-short rule reject it, and making the too-short check first changes the error returned. -/
theorem validateName_rules_overlap :
    NameRule.empty.rejects (trim (lit "  ")) = true ∧
    NameRule.tooShort.rejects (trim (lit "  ")) = true ∧
    validateNameIn [NameRule.tooShort, NameRule.empty, NameRule.tooLong] (lit "  ")
      ≠ validateName (lit "  ") := by
  decide

/-- C10, amended. For every string `s` the too-long rule excludes the other two and the
empty rule implies the too-short rule, so at most one rule rejects `s` whenever the trimmed
`s` is non-empty; in whatever order the three checks are made `isValid` is the same, and the
error returned is the same whenever the trimmed `s` is non-empty. -/
theorem validateName_order_of_checks (order : List NameRule) (hp : order.Perm sourceOrder)
    (s : JSString) :
    (NameRule.tooLong.rejects (trim s) = true →
      NameRule.empty.rejects (trim s) = false ∧ NameRule.tooShort.rejects (trim s) = false) ∧
    (NameRule.empty.rejects (trim s) = true → NameRule.tooShort.rejects (trim s) = true) ∧
    (trim s ≠ [] → ∀ r1 r2 : NameRule,
      r1.rejects (trim s) = true → r2.rejects (trim s) = true → r1 = r2) ∧
    (validateNameIn order s).isValid = (validateName s).isValid ∧
    (trim s ≠ [] → validateNameIn order s = validateName s) := by
  refine ⟨?_, ?_, ?_, (validateNameIn_perm order hp s).1, (validateNameIn_perm order hp s).2⟩
  · simp only [NameRule.rejects, decide_eq_true_eq, decide_eq_false_iff_not]
    intro h
    refine ⟨?_, by omega⟩
    cases ht : trim s with
    | nil => simp [ht] at h
    | cons x xs => rfl
  · simp only [NameRule.rejects, decide_eq_true_eq, List.isEmpty_iff]
    intro h
    simp [h]
  · intro hne r1 r2
    have he : (trim s).isEmpty = false := by
      cases ht : trim s with
      | nil => exact absurd ht hne
      | cons x xs => rfl
    cases r1 <;> cases r2 <;>
      simp only [NameRule.rejects, he, decide_eq_true_eq, Bool.false_eq_true, false_implies,
        implies_true, reduceCtorEq, imp_false, not_lt]
    all_goals
      intro h
      first
        | omega
        | exact not_false

/-- C10, amended, at the order too long, too short, empty and the name `Jo`. -/
theorem validateName_order_of_checks_witness :
    [NameRule.tooLong, NameRule.tooShort, NameRule.empty].Perm sourceOrder ∧
    validateNameIn [NameRule.tooLong, NameRule.tooShort, NameRule.empty] (lit "Jo")
      = validateName (lit "Jo") :=
  ⟨by decide, (validateName_order_of_checks _ (by decide) (lit "Jo")).2.2.2.2 (by decide)⟩

/-! ## Lemmas on traces and on the handler -/

theorem fetches_append (l1 l2 : List Event) : fetches (l1 ++ l2) = fetches l1 ++ fetches l2 := by
  induction l1 with
  | nil => rfl
  | cons e es ih => cases e <;> simp [fetches, ih]

theorem timers_append (l1 l2 : List Event) : timers (l1 ++ l2) = timers l1 ++ timers l2 := by
  induction l1 with
  | nil => rfl
  | cons e es ih => cases e <;> simp [timers, ih]

theorem downloads_append (l1 l2 : List Event) :
    downloads (l1 ++ l2) = downloads l1 ++ downloads l2 := by
  induction l1 with
  | nil => rfl
  | cons e es ih => cases e <;> simp [downloads, ih]

theorem validateName_error_ne (s : JSString) (hv : (validateName s).isValid = false) :
    (validateName s).error ≠ "" := by
  simp only [validateName] at hv ⊢
  split_ifs at hv ⊢ <;> simp_all

theorem validateEmail_error_ne (h : Host) (s : JSString)
    (hv : (validateEmail h s).isValid = false) : (validateEmail h s).error ≠ "" := by
  simp only [validateEmail] at hv ⊢
  split_ifs at hv ⊢ <;> simp_all

theorem validateName_trim_nil (s : JSString) (ht : trim s = []) :
    validateName s = { isValid := false, error := "Name is required" } := by
  simp [validateName, ht]

/-! ## The submit handler -/

/-- C3. In every run of `handleFormSubmit` a payload is handed to `submitToGoogleSheets`
exactly when the honeypot is empty and both validators accept the fields; the payload then
holds the trimmed name and the trimmed, lower-cased email; and the run makes this one network
call in that case and none in every other case. -/
theorem handleFormSubmit_payload (h : Host) (t : Transport) (w : World) :
    (handleFormSubmit.prepare h w).2 =
      (if w.dom.value Field.honeypot = [] ∧
          (validateName (w.dom.value Field.name)).isValid = true ∧
          (validateEmail h (w.dom.value Field.email)).isValid = true then
        some { name := trim (w.dom.value Field.name)
               email := h.toLowerCase (trim (w.dom.value Field.email))
               timestamp := h.isoNow }
      else none) ∧
    fetches (handleFormSubmit h t w).trace = fetches w.trace ++
      (if w.dom.value Field.honeypot = [] ∧
          (validateName (w.dom.value Field.name)).isValid = true ∧
          (validateEmail h (w.dom.value Field.email)).isValid = true then
        [{ name := trim (w.dom.value Field.name)
           email := h.toLowerCase (trim (w.dom.value Field.email))
           timestamp := h.isoNow }]
      else []) := by
  by_cases hs : w.dom.value Field.honeypot = []
  · cases hn : (validateName (w.dom.value Field.name)).isValid
    · have hne := validateName_error_ne _ hn
      simp [handleFormSubmit, handleFormSubmit.prepare, hideMessages, showFieldError,
        World.exec, Dom.apply, isSpam, hs, hn, hne, fetches_append, fetches]
    · cases he : (validateEmail h (w.dom.value Field.email)).isValid
      · have hne := validateEmail_error_ne _ _ he
        simp [handleFormSubmit, handleFormSubmit.prepare, hideMessages, showFieldError,
          World.exec, Dom.apply, isSpam, hs, hn, he, hne, fetches_append, fetches]
      · cases t <;>
          simp [handleFormSubmit, handleFormSubmit.prepare, handleFormSubmit.finish,
            submitToGoogleSheets, submitToGoogleSheets.dispatch, submitToGoogleSheets.settle,
            hideMessages, showFieldError, showSuccessMessage, showErrorMessage, resetForm,
            World.exec, Dom.apply, isSpam, hs, hn, he, fetches_append, fetches]
  · have hl : 0 < (w.dom.value Field.honeypot).length := List.length_pos.2 hs
    simp [handleFormSubmit, handleFormSubmit.prepare, hideMessages, showSuccessMessage,
      resetForm, World.exec, Dom.apply, isSpam, hs, hl, fetches_append, fetches]

/-- C4. When the honeypot holds a non-empty value, whatever the name and email fields hold,
`handleFormSubmit` ends with the success banner shown and the error banner hidden, the three
fields cleared, no field error written by the run, and no payload built or sent. -/
theorem honeypot_fakes_success (h : Host) (t : Transport) (w : World)
    (hp : (w.dom.value Field.honeypot).length > 0) :
    (handleFormSubmit h t w).dom.display Elem.successMessage = "block" ∧
    (handleFormSubmit h t w).dom.display Elem.errorMessage = "none" ∧
    (∀ f, (handleFormSubmit h t w).dom.value f = []) ∧
    (∀ el, (handleFormSubmit h t w).dom.textContent el = w.dom.textContent el ∧
      (handleFormSubmit h t w).dom.hasShow el = w.dom.hasShow el) ∧
    (handleFormSubmit.prepare h w).2 = none ∧
    fetches (handleFormSubmit h t w).trace = fetches w.trace ∧
    (handleFormSubmit h t w).trace = w.trace ++
      [Event.preventDefault,
       Event.setDisplay Elem.successMessage "none",
       Event.setDisplay Elem.errorMessage "none",
       Event.consoleWarn "Honeypot field was filled - likely spam",
       Event.setDisplay Elem.successMessage "block",
       Event.setDisplay Elem.errorMessage "none",
       Event.formReset,
       Event.setValue Field.name [],
       Event.setValue Field.email [],
       Event.setValue Field.honeypot [],
       Event.setTimeout Callback.reenableSubmit 2000] := by
  have hl : 0 < (w.dom.value Field.honeypot).length := hp
  refine ⟨?_, ?_, ?_, ?_, ?_, ?_, ?_⟩
  · simp [handleFormSubmit, handleFormSubmit.prepare, hideMessages, showSuccessMessage,
      resetForm, World.exec, Dom.apply, isSpam, hl]
  · simp [handleFormSubmit, handleFormSubmit.prepare, hideMessages, showSuccessMessage,
      resetForm, World.exec, Dom.apply, isSpam, hl]
  · intro f
    cases f <;>
      simp [handleFormSubmit, handleFormSubmit.prepare, hideMessages, showSuccessMessage,
        resetForm, World.exec, Dom.apply, isSpam, hl]
  · intro el
    simp [handleFormSubmit, handleFormSubmit.prepare, hideMessages, showSuccessMessage,
      resetForm, World.exec, Dom.apply, isSpam, hl]
  · simp [handleFormSubmit.prepare, hideMessages, World.exec, Dom.apply, isSpam, hl]
  · simp [handleFormSubmit, handleFormSubmit.prepare, hideMessages, showSuccessMessage,
      resetForm, World.exec, Dom.apply, isSpam, hl, fetches_append, fetches]
  · simp [handleFormSubmit, handleFormSubmit.prepare, hideMessages, showSuccessMessage,
      resetForm, World.exec, Dom.apply, isSpam, hl]

/-- C4 at the document of scenario C: honeypot `anything`, name and email empty. -/
theorem honeypot_fakes_success_witness :
    ((World.sample [] [] (lit "anything")).dom.value Field.honeypot).length > 0 ∧
    (handleFormSubmit asciiHost Transport.completes
      (World.sample [] [] (lit "anything"))).dom.display Elem.successMessage = "block" :=
  ⟨by decide,
   (honeypot_fakes_success asciiHost Transport.completes (World.sample [] [] (lit "anything"))
      (by decide)).1⟩

/-- C5, as stated, fails at the document of scenario C (honeypot `anything`, name and email
empty): the only timer the run starts is the re-enable timer, no download is scheduled, and
none has been performed once that timer has fired. -/
theorem scenarioC_schedules_no_download :
    timers (handleFormSubmit asciiHost Transport.completes
      (World.sample [] [] (lit "anything"))).trace = [(Callback.reenableSubmit, 2000)] ∧
    (Callback.downloadEbook, 500) ∉ timers (handleFormSubmit asciiHost Transport.completes
      (World.sample [] [] (lit "anything"))).trace ∧
    downloads (runCallback Callback.reenableSubmit (handleFormSubmit asciiHost
      Transport.completes (World.sample [] [] (lit "anything")))).trace = [] := by
  decide

/-- C5, amended. In the spam-detected path of `handleFormSubmit` (honeypot non-empty) no
file download is scheduled: the only timer the run starts is the 2000 ms re-enable timer of
`resetForm`, and no download has been performed when the run ends or when that timer has
fired. -/
theorem spam_path_timers (h : Host) (t : Transport) (w : World)
    (hp : (w.dom.value Field.honeypot).length > 0) :
    timers (handleFormSubmit h t w).trace
      = timers w.trace ++ [(Callback.reenableSubmit, 2000)] ∧
    downloads (handleFormSubmit h t w).trace = downloads w.trace ∧
    downloads (runCallback Callback.reenableSubmit (handleFormSubmit h t w)).trace
      = downloads w.trace := by
  have hl : 0 < (w.dom.value Field.honeypot).length := hp
  simp [handleFormSubmit, handleFormSubmit.prepare, hideMessages, showSuccessMessage,
    resetForm, runCallback, World.exec, Dom.apply, isSpam, hl, timers_append, timers,
    downloads_append, downloads]

/-- C5, amended, at honeypot `x` with a valid name and email in the other fields. -/
theorem spam_path_timers_witness :
    ((World.sample (lit "Jo") (lit "a@b.co") (lit "x")).dom.value Field.honeypot).length > 0 ∧
    timers (handleFormSubmit asciiHost Transport.completes
      (World.sample (lit "Jo") (lit "a@b.co") (lit "x"))).trace
      = timers (World.sample (lit "Jo") (lit "a@b.co") (lit "x")).trace
        ++ [(Callback.reenableSubmit, 2000)] :=
  ⟨by decide,
   (spam_path_timers asciiHost Transport.completes
      (World.sample (lit "Jo") (lit "a@b.co") (lit "x")) (by decide)).1⟩

/-- C6. With an empty honeypot and a valid name and email, when the transport call completes
without a fault, `handleFormSubmit` ends with the success banner shown, the fields cleared
and the submit control still disabled; the timers it has started are the re-enable timer of
2000 ms, which enables the control and restores its label when it fires, and one
`downloadEbook` timer of 500 ms; no download is performed by the run itself; and in the run
the fields are cleared before the re-enable timer is started. -/
theorem handleFormSubmit_success (h : Host) (w : World)
    (hs : w.dom.value Field.honeypot = [])
    (hn : (validateName (w.dom.value Field.name)).isValid = true)
    (he : (validateEmail h (w.dom.value Field.email)).isValid = true) :
    (handleFormSubmit h Transport.completes w).dom.display Elem.successMessage = "block" ∧
    (handleFormSubmit h Transport.completes w).dom.display Elem.errorMessage = "none" ∧
    (∀ f, (handleFormSubmit h Transport.completes w).dom.value f = []) ∧
    (handleFormSubmit h Transport.completes w).dom.disabled = true ∧
    (runCallback Callback.downloadEbook
      (handleFormSubmit h Transport.completes w)).dom.disabled = true ∧
    ((runCallback Callback.reenableSubmit
        (handleFormSubmit h Transport.completes w)).dom.disabled = false ∧
      (runCallback Callback.reenableSubmit
        (handleFormSubmit h Transport.completes w)).dom.display Elem.submitText = "inline" ∧
      (runCallback Callback.reenableSubmit
        (handleFormSubmit h Transport.completes w)).dom.display Elem.submitLoader = "none") ∧
    timers (handleFormSubmit h Transport.completes w).trace = timers w.trace ++
      [(Callback.reenableSubmit, 2000), (Callback.downloadEbook, 500)] ∧
    downloads (handleFormSubmit h Transport.completes w).trace = downloads w.trace ∧
    downloads (runCallback Callback.downloadEbook
      (handleFormSubmit h Transport.completes w)).trace = downloads w.trace ++
      [("/ebook.pdf", "Overcome_Procrastination_Guide.pdf")] ∧
    (handleFormSubmit h Transport.completes w).trace = w.trace ++
      [Event.preventDefault,
       Event.setDisplay Elem.successMessage "none",
       Event.setDisplay Elem.errorMessage "none",
       Event.setTextContent Elem.nameError "",
       Event.removeShow Elem.nameError,
       Event.setTextContent Elem.emailError "",
       Event.removeShow Elem.emailError,
       Event.setDisabled true,
       Event.setDisplay Elem.submitText "none",
       Event.setDisplay Elem.submitLoader "inline",
       Event.fetch GOOGLE_SCRIPT_URL
         { name := trim (w.dom.value Field.name)
           email := h.toLowerCase (trim (w.dom.value Field.email))
           timestamp := h.isoNow },
       Event.setDisplay Elem.successMessage "block",
       Event.setDisplay Elem.errorMessage "none",
       Event.formReset,
       Event.setValue Field.name [],
       Event.setValue Field.email [],
       Event.setValue Field.honeypot [],
       Event.setTimeout Callback.reenableSubmit 2000,
       Event.setTimeout Callback.downloadEbook 500,
       Event.scrollIntoView Elem.successMessage] := by
  refine ⟨?_, ?_, ?_, ?_, ?_, ⟨?_, ?_, ?_⟩, ?_, ?_, ?_, ?_⟩
  case refine_3 =>
    intro f
    cases f <;>
      simp [handleFormSubmit, handleFormSubmit.prepare, handleFormSubmit.finish,
        submitToGoogleSheets, submitToGoogleSheets.dispatch, submitToGoogleSheets.settle,
        hideMessages, showFieldError, showSuccessMessage, resetForm, World.exec, Dom.apply,
        isSpam, hs, hn, he]
  all_goals
    simp [handleFormSubmit, handleFormSubmit.prepare, handleFormSubmit.finish,
      submitToGoogleSheets, submitToGoogleSheets.dispatch, submitToGoogleSheets.settle,
      hideMessages, showFieldError, showSuccessMessage, resetForm, runCallback, downloadEbook,
      World.exec, Dom.apply, isSpam, hs, hn, he, timers_append, timers, downloads_append,
      downloads]

/-- C6 at the document of scenario A: name `Jo`, email `a@b.co`, honeypot empty. -/
theorem handleFormSubmit_success_witness :
    (World.sample (lit "Jo") (lit "a@b.co") []).dom.value Field.honeypot = [] ∧
    (validateName ((World.sample (lit "Jo") (lit "a@b.co") []).dom.value Field.name)).isValid
      = true ∧
    (validateEmail asciiHost
      ((World.sample (lit "Jo") (lit "a@b.co") []).dom.value Field.email)).isValid = true ∧
    (handleFormSubmit asciiHost Transport.completes
      (World.sample (lit "Jo") (lit "a@b.co") [])).dom.display Elem.successMessage = "block" :=
  ⟨by decide, by decide, by decide,
   (handleFormSubmit_success asciiHost (World.sample (lit "Jo") (lit "a@b.co") [])
      (by decide) (by decide) (by decide)).1⟩

/-- C7. With an empty honeypot and a valid name and email, when the transport call throws,
`submitToGoogleSheets` returns `{success: false, error: <message>}` and `handleFormSubmit`
ends with the error banner shown carrying that message and the success banner hidden, the
submit control enabled with its label restored, no timer started (so no download scheduled
and none performed), and every field value unchanged. -/
theorem handleFormSubmit_transport_fault (h : Host) (w : World)
    (hs : w.dom.value Field.honeypot = [])
    (hn : (validateName (w.dom.value Field.name)).isValid = true)
    (he : (validateEmail h (w.dom.value Field.email)).isValid = true) :
    (∀ data w1, (submitToGoogleSheets Transport.throws data w1).1 =
      { success := false, error := some "Failed to process your request. Please try again." }) ∧
    (handleFormSubmit h Transport.throws w).dom.display Elem.errorMessage = "block" ∧
    (handleFormSubmit h Transport.throws w).dom.textContent Elem.errorText
      = "Failed to process your request. Please try again." ∧
    (handleFormSubmit h Transport.throws w).dom.display Elem.successMessage = "none" ∧
    (handleFormSubmit h Transport.throws w).dom.disabled = false ∧
    (handleFormSubmit h Transport.throws w).dom.display Elem.submitText = "inline" ∧
    (handleFormSubmit h Transport.throws w).dom.display Elem.submitLoader = "none" ∧
    timers (handleFormSubmit h Transport.throws w).trace = timers w.trace ∧
    downloads (handleFormSubmit h Transport.throws w).trace = downloads w.trace ∧
    (∀ f, (handleFormSubmit h Transport.throws w).dom.value f = w.dom.value f) := by
  refine ⟨?_, ?_, ?_, ?_, ?_, ?_, ?_, ?_, ?_, ?_⟩
  case refine_1 =>
    intro data w1
    rfl
  all_goals
    simp [handleFormSubmit, handleFormSubmit.prepare, handleFormSubmit.finish,
      submitToGoogleSheets, submitToGoogleSheets.dispatch, submitToGoogleSheets.settle,
      hideMessages, showFieldError, showErrorMessage, World.exec, Dom.apply,
      isSpam, hs, hn, he, timers_append, timers, downloads_append, downloads]

/-- C7 at the document of scenario D: name `Jo`, email `a@b.co`, the transport throws. -/
theorem handleFormSubmit_transport_fault_witness :
    (World.sample (lit "Jo") (lit "a@b.co") []).dom.value Field.honeypot = [] ∧
    (validateName ((World.sample (lit "Jo") (lit "a@b.co") []).dom.value Field.name)).isValid
      = true ∧
    (validateEmail asciiHost
      ((World.sample (lit "Jo") (lit "a@b.co") []).dom.value Field.email)).isValid = true ∧
    (handleFormSubmit asciiHost Transport.throws
      (World.sample (lit "Jo") (lit "a@b.co") [])).dom.display Elem.errorMessage = "block" :=
  ⟨by decide, by decide, by decide,
   (handleFormSubmit_transport_fault asciiHost (World.sample (lit "Jo") (lit "a@b.co") [])
      (by decide) (by decide) (by decide)).2.1⟩

/-- C8. With an empty honeypot, when `validateName` or `validateEmail` fails,
`handleFormSubmit` shows the inline error of the first failing field (the name before the
email) with the message the validator returned (`Name is required` for a name that trims to
nothing), leaves the displayed error of the other field, the field values and the enabled
and label state of the submit control unchanged, starts no timer and makes no network call. -/
theorem handleFormSubmit_rejected (h : Host) (t : Transport) (w : World)
    (hs : w.dom.value Field.honeypot = [])
    (hv : (validateName (w.dom.value Field.name)).isValid = false ∨
      (validateEmail h (w.dom.value Field.email)).isValid = false) :
    ((validateName (w.dom.value Field.name)).isValid = false →
      (handleFormSubmit h t w).dom.textContent Elem.nameError
        = (validateName (w.dom.value Field.name)).error ∧
      (handleFormSubmit h t w).dom.hasShow Elem.nameError = true ∧
      (handleFormSubmit h t w).dom.textContent Elem.emailError
        = w.dom.textContent Elem.emailError ∧
      (handleFormSubmit h t w).dom.hasShow Elem.emailError = w.dom.hasShow Elem.emailError) ∧
    ((validateName (w.dom.value Field.name)).isValid = true →
      (handleFormSubmit h t w).dom.textContent Elem.emailError
        = (validateEmail h (w.dom.value Field.email)).error ∧
      (handleFormSubmit h t w).dom.hasShow Elem.emailError = true ∧
      (handleFormSubmit h t w).dom.textContent Elem.nameError
        = w.dom.textContent Elem.nameError ∧
      (handleFormSubmit h t w).dom.hasShow Elem.nameError = w.dom.hasShow Elem.nameError) ∧
    (trim (w.dom.value Field.name) = [] →
      (handleFormSubmit h t w).dom.textContent Elem.nameError = "Name is required") ∧
    (∀ f, (handleFormSubmit h t w).dom.value f = w.dom.value f) ∧
    (handleFormSubmit h t w).dom.disabled = w.dom.disabled ∧
    (handleFormSubmit h t w).dom.display Elem.submitText = w.dom.display Elem.submitText ∧
    (handleFormSubmit h t w).dom.display Elem.submitLoader
      = w.dom.display Elem.submitLoader ∧
    (handleFormSubmit.prepare h w).2 = none ∧
    fetches (handleFormSubmit h t w).trace = fetches w.trace ∧
    timers (handleFormSubmit h t w).trace = timers w.trace := by
  cases hn : (validateName (w.dom.value Field.name)).isValid
  · have hne := validateName_error_ne _ hn
    refine ⟨?_, ?_, ?_, ?_, ?_, ?_, ?_, ?_, ?_, ?_⟩
    case refine_3 =>
      intro ht
      have hr := validateName_trim_nil _ ht
      simp [handleFormSubmit, handleFormSubmit.prepare, hideMessages, showFieldError,
        World.exec, Dom.apply, isSpam, hs, hr]
    all_goals
      simp [handleFormSubmit, handleFormSubmit.prepare, hideMessages, showFieldError,
        World.exec, Dom.apply, isSpam, hs, hn, hne, fetches_append, fetches, timers_append,
        timers]
  · have he : (validateEmail h (w.dom.value Field.email)).isValid = false := by
      rcases hv with hv | hv
      · rw [hn] at hv
        exact absurd hv (by decide)
      · exact hv
    have hne := validateEmail_error_ne _ _ he
    refine ⟨?_, ?_, ?_, ?_, ?_, ?_, ?_, ?_, ?_, ?_⟩
    case refine_3 =>
      intro ht
      have hr := validateName_trim_nil _ ht
      rw [hr] at hn
      exact absurd hn (by decide)
    all_goals
      simp [handleFormSubmit, handleFormSubmit.prepare, hideMessages, showFieldError,
        World.exec, Dom.apply, isSpam, hs, hn, he, hne, fetches_append, fetches,
        timers_append, timers]

/-- C8 at the document of scenario B: a name of one space. -/
theorem handleFormSubmit_rejected_witness :
    (World.sample (lit " ") (lit "a@b.co") []).dom.value Field.honeypot = [] ∧
    ((validateName ((World.sample (lit " ") (lit "a@b.co") []).dom.value Field.name)).isValid
        = false ∨
      (validateEmail asciiHost
        ((World.sample (lit " ") (lit "a@b.co") []).dom.value Field.email)).isValid = false) ∧
    (handleFormSubmit asciiHost Transport.completes
      (World.sample (lit " ") (lit "a@b.co") [])).dom.textContent Elem.nameError
      = "Name is required" :=
  ⟨by decide, by decide,
   (handleFormSubmit_rejected asciiHost Transport.completes
      (World.sample (lit " ") (lit "a@b.co") []) (by decide) (by decide)).2.2.1 (by decide)⟩

/-! ## Double submission -/

theorem iterate_triggerSubmit_of_disabled (h : Host) (p : Page)
    (hd : p.world.dom.disabled = true) (n : Nat) : (Page.triggerSubmit h)^[n] p = p := by
  apply Function.iterate_fixed
  simp [Page.triggerSubmit, hd]

/-- The listener itself does not look at the submit control: were a second `submit` event
raised while the first request is in flight, a second network call would be made. -/
theorem submitEvent_twice_fetches_twice :
    (fetches (Page.submitEvent asciiHost (Page.submitEvent asciiHost
      { world := World.sample (lit "Jo") (lit "a@b.co") [], inFlight := [] })).world.trace).length
      = 2 := by
  decide

/-- C9. For a valid, non-spam form state: the handler has disabled the submit control, and
made no network call yet, when it hands the payload to `submitToGoogleSheets`; the control
is disabled while the request is in flight, so that triggering submit through it any number
of times changes nothing and one network call has been made when the request settles; and
when the request completes the control stays disabled, also after the download timer has
fired, so that further triggers before the re-enable timer fires leave the total at one
network call. -/
theorem double_submit_guard (h : Host) (w : World) (t : Transport) (n m : Nat)
    (hs : w.dom.value Field.honeypot = [])
    (hn : (validateName (w.dom.value Field.name)).isValid = true)
    (he : (validateEmail h (w.dom.value Field.email)).isValid = true) :
    ((handleFormSubmit.prepare h w).1.dom.disabled = true ∧
      (handleFormSubmit.prepare h w).1.dom.display Elem.submitText = "none" ∧
      (handleFormSubmit.prepare h w).1.dom.display Elem.submitLoader = "inline" ∧
      fetches (handleFormSubmit.prepare h w).1.trace = fetches w.trace) ∧
    (Page.submitEvent h { world := w, inFlight := [] }).world.dom.disabled = true ∧
    (Page.triggerSubmit h)^[n] (Page.submitEvent h { world := w, inFlight := [] })
      = Page.submitEvent h { world := w, inFlight := [] } ∧
    fetches (Page.settle t ((Page.triggerSubmit h)^[n]
      (Page.submitEvent h { world := w, inFlight := [] }))).world.trace
      = fetches w.trace ++
        [{ name := trim (w.dom.value Field.name)
           email := h.toLowerCase (trim (w.dom.value Field.email))
           timestamp := h.isoNow }] ∧
    fetches ((Page.triggerSubmit h)^[m] (Page.fire Callback.downloadEbook
      ((Page.triggerSubmit h)^[m] (Page.settle Transport.completes ((Page.triggerSubmit h)^[n]
        (Page.submitEvent h { world := w, inFlight := [] })))))).world.trace
      = fetches w.trace ++
        [{ name := trim (w.dom.value Field.name)
           email := h.toLowerCase (trim (w.dom.value Field.email))
           timestamp := h.isoNow }] := by
  have h1 : (Page.submitEvent h { world := w, inFlight := [] }).world.dom.disabled = true := by
    simp [Page.submitEvent, handleFormSubmit.prepare, submitToGoogleSheets.dispatch,
      hideMessages, showFieldError, World.exec, Dom.apply, isSpam, hs, hn, he]
  have h2 := iterate_triggerSubmit_of_disabled h _ h1 n
  have h3 : (Page.settle Transport.completes
      (Page.submitEvent h { world := w, inFlight := [] })).world.dom.disabled = true := by
    simp [Page.settle, Page.submitEvent, handleFormSubmit.prepare, handleFormSubmit.finish,
      submitToGoogleSheets.dispatch, submitToGoogleSheets.settle, hideMessages,
      showFieldError, showSuccessMessage, resetForm, World.exec, Dom.apply, isSpam, hs, hn, he]
  have h4 : (Page.fire Callback.downloadEbook (Page.settle Transport.completes
      (Page.submitEvent h { world := w, inFlight := [] }))).world.dom.disabled = true := by
    simp [Page.fire, runCallback, downloadEbook, Page.settle, Page.submitEvent,
      handleFormSubmit.prepare, handleFormSubmit.finish,
      submitToGoogleSheets.dispatch, submitToGoogleSheets.settle, hideMessages,
      showFieldError, showSuccessMessage, resetForm, World.exec, Dom.apply, isSpam, hs, hn, he]
  refine ⟨⟨?_, ?_, ?_, ?_⟩, h1, h2, ?_, ?_⟩
  · simp [handleFormSubmit.prepare, hideMessages, showFieldError, World.exec, Dom.apply,
      isSpam, hs, hn, he]
  · simp [handleFormSubmit.prepare, hideMessages, showFieldError, World.exec, Dom.apply,
      isSpam, hs, hn, he]
  · simp [handleFormSubmit.prepare, hideMessages, showFieldError, World.exec, Dom.apply,
      isSpam, hs, hn, he]
  · simp [handleFormSubmit.prepare, hideMessages, showFieldError, World.exec, Dom.apply,
      isSpam, hs, hn, he, fetches_append, fetches]
  · rw [h2]
    cases t <;>
      simp [Page.settle, Page.submitEvent, handleFormSubmit.prepare, handleFormSubmit.finish,
        submitToGoogleSheets.dispatch, submitToGoogleSheets.settle, hideMessages,
        showFieldError, showSuccessMessage, showErrorMessage, resetForm, World.exec,
        Dom.apply, isSpam, hs, hn, he, fetches_append, fetches]
  · rw [h2, iterate_triggerSubmit_of_disabled h _ h3 m,
      iterate_triggerSubmit_of_disabled h _ h4 m]
    simp [Page.fire, runCallback, downloadEbook, Page.settle, Page.submitEvent,
      handleFormSubmit.prepare, handleFormSubmit.finish,
      submitToGoogleSheets.dispatch, submitToGoogleSheets.settle, hideMessages,
      showFieldError, showSuccessMessage, resetForm, World.exec, Dom.apply, isSpam, hs, hn, he,
      fetches_append, fetches]

/-- C9 at name `Jo`, email `a@b.co`: two further triggers while the request is in flight. -/
theorem double_submit_guard_witness :
    (World.sample (lit "Jo") (lit "a@b.co") []).dom.value Field.honeypot = [] ∧
    (validateName ((World.sample (lit "Jo") (lit "a@b.co") []).dom.value Field.name)).isValid
      = true ∧
    (validateEmail asciiHost
      ((World.sample (lit "Jo") (lit "a@b.co") []).dom.value Field.email)).isValid = true ∧
    fetches (Page.settle Transport.completes ((Page.triggerSubmit asciiHost)^[2]
      (Page.submitEvent asciiHost
        { world := World.sample (lit "Jo") (lit "a@b.co") [], inFlight := [] }))).world.trace
      = fetches (World.sample (lit "Jo") (lit "a@b.co") []).trace ++
        [{ name := trim ((World.sample (lit "Jo") (lit "a@b.co") []).dom.value Field.name)
           email := asciiHost.toLowerCase
             (trim ((World.sample (lit "Jo") (lit "a@b.co") []).dom.value Field.email))
           timestamp := asciiHost.isoNow }] :=
  ⟨by decide, by decide, by decide,
   (double_submit_guard asciiHost (World.sample (lit "Jo") (lit "a@b.co") [])
      Transport.completes 2 0 (by decide) (by decide) (by decide)).2.2.2.1⟩

end EBook
